import Mathlib

/-!
Shallow embedding of the issue lifecycle engine of the campus
feedback-and-escalation tracker (backend/server.py), together with proofs
of the behavioural properties claimed for it.

Modelling conventions:
* The MongoDB collections are embedded as a `Store` record holding the
  `issues` and `issue_updates` collections as lists in insertion order;
  `find` with a filter is `List.filter`, `find_one` is `List.find?`,
  `to_list(n)` is `List.take n`, `insert_one` appends, and `update_one`
  rewrites the first document matching the id.
* A UTC instant is embedded as its epoch-second count (`UtcTime`);
  `isoformat` renders it zero-padded to a fixed width, which, like
  ISO-8601 strings of a common format, compares lexicographically the
  same way the instants compare.  Timestamps stored in documents are
  kept as strings and compared as strings, exactly as the code and the
  Mongo string comparison do.
* The external moderation call (`LlmChat` / Gemini) is a fallible oracle:
  a parameter of type `String → Option ModerationResult`, where `none`
  is the call raising an exception.  The SHA-256 digest used by the
  anonymity token is likewise a parameter `String → String`; nothing in
  the claims depends on the digest beyond it being a function of its
  input.
* Generated UUIDs and current timestamps are passed in as explicit
  arguments, making every operation a pure function from its inputs and
  the store to a result and the new store.  Each handler returns
  `Except HTTPException result × Store`; an exception raised before any
  write returns the store unchanged, matching the fact that the code
  performs no database write before the raise.
-/

/-- HTTP error as raised by the handlers: a status code and a detail
string. -/
structure HTTPException where
  status_code : Nat
  detail : String
  deriving DecidableEq, Repr

/-- Moderation verdict produced by the gateway, the fields of the JSON
object the code expects from the model. -/
structure ModerationResult where
  is_appropriate : Bool
  rewritten_text : String
  urgency_score : Int
  summary : String
  deriving DecidableEq, Repr

/-- Issue document, the fields of the pydantic `Issue` model. -/
structure Issue where
  issue_id : String
  category : String
  summary : String
  original_text : String
  status : String
  urgency_score : Int
  assigned_role : String
  frequency_count : Int
  created_at : String
  sla_deadline : String
  anon_token : String
  evidence_urls : List String
  deriving DecidableEq, Repr

/-- Issue update document, the fields of the pydantic `IssueUpdate`
model. -/
structure IssueUpdate where
  update_id : String
  issue_id : String
  role : String
  content_type : String
  content_text : Option String
  content_url : Option String
  timestamp : String
  deriving DecidableEq, Repr

/-- Request body of the feedback submission endpoint. -/
structure FeedbackSubmit where
  category : String
  text : String
  evidence_urls : Option (List String)
  deriving DecidableEq, Repr

/-- Request body of the add-update endpoint. -/
structure UpdateCreate where
  content_type : String
  content_text : Option String
  deriving DecidableEq, Repr

/-- The authenticated caller as the handlers consume it: identity and
role. -/
structure CurrentUser where
  uid : String
  role : String
  deriving DecidableEq, Repr

/-- The two collections the lifecycle engine touches, in insertion
order. -/
structure Store where
  issues : List Issue
  issue_updates : List IssueUpdate
  deriving DecidableEq, Repr

/-- Response of the feedback submission endpoint. -/
structure SubmitResponse where
  message : String
  issue_id : String
  deriving DecidableEq, Repr

/-- UTC instant, embedded as seconds since the epoch. -/
structure UtcTime where
  secs : Nat
  deriving DecidableEq, Repr

/-- Python timedelta addition of whole days. -/
def UtcTime.addDays (t : UtcTime) (d : Nat) : UtcTime :=
  ⟨t.secs + d * 86400⟩

/-- Rendering of an instant as its stored timestamp string, modelling
datetime.isoformat: the epoch-second count zero-padded to width 20, so
that instants compare lexicographically as they compare numerically,
the property the code relies on when Mongo compares `sla_deadline`
strings with `$lt`. -/
def UtcTime.isoformat (t : UtcTime) : String :=
  let s := toString t.secs
  String.mk (List.replicate (20 - s.length) '0') ++ s

/-- Day bucket of an instant: the UTC calendar day it falls on, embedded
as the day count since the epoch (two instants lie on the same UTC
calendar day exactly when their day counts agree). -/
def UtcTime.dayBucket (t : UtcTime) : Nat :=
  t.secs / 86400

/-- Rendering of the day bucket as a string, modelling
strftime of the pattern Y-m-d used as the token salt: a string
determined exactly by the UTC calendar day of the instant. -/
def strftime_day (t : UtcTime) : String :=
  toString t.dayBucket

/-- generate_anon_token: sha256 of uid concatenated with the day salt,
truncated to 12 characters.  The digest is the `hash` parameter. -/
def generate_anon_token (hash : String → String) (uid : String) (now : UtcTime) : String :=
  let salt := strftime_day now
  (hash (uid ++ salt)).take 12

/-- The role-hierarchy table of get_role_hierarchy. -/
def hierarchies : List (String × List String) :=
  [("Academics", ["Staff", "HoD", "Admin", "Principal"]),
   ("Hostel", ["Warden", "Admin", "Principal"]),
   ("Infrastructure", ["Staff", "Admin", "Principal"]),
   ("Food", ["Staff", "Admin", "Principal"]),
   ("Transportation", ["Staff", "Admin", "Principal"]),
   ("Other", ["Staff", "Admin", "Principal"])]

/-- get_role_hierarchy: the category chain, with the dict-get fallback
to the default chain. -/
def get_role_hierarchy (category : String) : List String :=
  (hierarchies.lookup category).getD ["Staff", "Admin", "Principal"]

/-- moderate_with_gemini: call the gateway; when the call itself fails
(the except branch), fall back to the permissive default of appropriate
content, the original text, urgency 50 and the text truncated to 100
characters as summary. -/
def moderate_with_gemini (gateway : String → Option ModerationResult)
    (text : String) : ModerationResult :=
  match gateway text with
  | some result => result
  | none =>
    { is_appropriate := true
      rewritten_text := text
      urgency_score := 50
      summary := text.take 100 }

/-- Substring containment on character lists, the semantics of the
Python `in` operator on strings: the pattern occurs contiguously in the
haystack. -/
def contains_substr (hay : List Char) (pat : List Char) : Bool :=
  pat.isPrefixOf hay ||
    match hay with
    | [] => false
    | _ :: rest => contains_substr rest pat

/-- Python str.lower, computed on the character list of the string. -/
def lower (s : String) : List Char :=
  s.toList.map Char.toLower

/-- The duplicate test of submit_feedback on one existing issue:
the moderated summary, lowercased, occurs as a substring of the stored
summary, lowercased. -/
def is_similar (summary : String) (existing : Issue) : Bool :=
  contains_substr (lower existing.summary) (lower summary)

/-- Python falsy coalescing `x or default` on an optional string: both
None and the empty string (the falsy strings) yield the default. -/
def py_or (x : Option String) (default : String) : String :=
  match x with
  | none => default
  | some s => if s == "" then default else s

/-- Mongo update_one: rewrite the first document whose issue_id matches. -/
def update_one (issues : List Issue) (issue_id : String) (f : Issue → Issue) : List Issue :=
  match issues with
  | [] => []
  | i :: rest =>
    if i.issue_id == issue_id then f i :: rest
    else i :: update_one rest issue_id f

/-- submit_feedback handler.  Students only; moderate (with the
permissive fallback inside moderate_with_gemini); reject inappropriate
content; fetch up to 100 non-Resolved issues of the category and bump
the frequency count of the first whose stored summary contains the new
summary; otherwise create a fresh issue assigned to the head of the
category chain with a two-day SLA deadline. -/
def submit_feedback (gateway : String → Option ModerationResult)
    (hash : String → String) (now : UtcTime) (new_issue_id : String)
    (store : Store) (current_user : CurrentUser) (feedback : FeedbackSubmit) :
    Except HTTPException SubmitResponse × Store :=
  if current_user.role != "Student" then
    (.error ⟨403, "Only students can submit feedback"⟩, store)
  else
    let moderation := moderate_with_gemini gateway feedback.text
    if !moderation.is_appropriate then
      (.error ⟨400, "Feedback contains inappropriate content"⟩, store)
    else
      let existing_issues := (store.issues.filter
        (fun i => i.category == feedback.category && i.status != "Resolved")).take 100
      match existing_issues.find? (fun existing => is_similar moderation.summary existing) with
      | some existing =>
        let issues2 := update_one store.issues existing.issue_id
          (fun i => { i with frequency_count := i.frequency_count + 1 })
        (.ok ⟨"Similar issue already reported", existing.issue_id⟩,
         { store with issues := issues2 })
      | none =>
        let hierarchy := get_role_hierarchy feedback.category
        let assigned_role := hierarchy.headD "Staff"
        let anon_token := generate_anon_token hash current_user.uid now
        let sla_deadline := (now.addDays 2).isoformat
        let issue : Issue :=
          { issue_id := new_issue_id
            category := feedback.category
            summary := moderation.summary
            original_text := feedback.text
            status := "Open"
            urgency_score := moderation.urgency_score
            assigned_role := assigned_role
            frequency_count := 1
            created_at := now.isoformat
            sla_deadline := sla_deadline
            anon_token := anon_token
            evidence_urls := feedback.evidence_urls.getD [] }
        (.ok ⟨"Feedback submitted successfully", new_issue_id⟩,
         { store with issues := store.issues ++ [issue] })

/-- add_update handler.  Non-students only; 404 when the issue does not
exist; otherwise insert the update document and set the status to
In Progress unconditionally. -/
def add_update (update_id : String) (ts : String) (store : Store)
    (current_user : CurrentUser) (issue_id : String) (update : UpdateCreate) :
    Except HTTPException String × Store :=
  if current_user.role == "Student" then
    (.error ⟨403, "Students cannot update issues"⟩, store)
  else
    match store.issues.find? (fun i => i.issue_id == issue_id) with
    | none => (.error ⟨404, "Issue not found"⟩, store)
    | some _ =>
      let issue_update : IssueUpdate :=
        { update_id := update_id
          issue_id := issue_id
          role := current_user.role
          content_type := update.content_type
          content_text := update.content_text
          content_url := none
          timestamp := ts }
      let issues2 := update_one store.issues issue_id
        (fun i => { i with status := "In Progress" })
      (.ok "Update added successfully",
       { issues := issues2
         issue_updates := store.issue_updates ++ [issue_update] })

/-- escalate_issue handler.  Non-students only; 404 when the issue does
not exist; compute the position of the assigned role in the category
chain, with -1 as the not-found sentinel; refuse when the position is at
or past the last index; otherwise advance the role to the next chain
entry, set the status to Escalated and append a log update recording the
reason. -/
def escalate_issue (update_id : String) (ts : String) (store : Store)
    (current_user : CurrentUser) (issue_id : String) (reason : Option String) :
    Except HTTPException String × Store :=
  if current_user.role == "Student" then
    (.error ⟨403, "Students cannot escalate issues"⟩, store)
  else
    match store.issues.find? (fun i => i.issue_id == issue_id) with
    | none => (.error ⟨404, "Issue not found"⟩, store)
    | some issue =>
      let hierarchy := get_role_hierarchy issue.category
      let current_index : Int :=
        if hierarchy.contains issue.assigned_role then hierarchy.indexOf issue.assigned_role
        else -1
      if current_index ≥ (hierarchy.length : Int) - 1 then
        (.error ⟨400, "Already at highest level"⟩, store)
      else
        let next_role := hierarchy.getD (current_index + 1).toNat ""
        let issue_update : IssueUpdate :=
          { update_id := update_id
            issue_id := issue_id
            role := current_user.role
            content_type := "text"
            content_text := some ("Escalated to " ++ next_role ++ ". Reason: "
              ++ py_or reason "Manual escalation")
            content_url := none
            timestamp := ts }
        let issues2 := update_one store.issues issue_id
          (fun i => { i with assigned_role := next_role, status := "Escalated" })
        (.ok ("Issue escalated to " ++ next_role),
         { issues := issues2
           issue_updates := store.issue_updates ++ [issue_update] })

/-- Selection predicate of the SLA sweep: status Open or In Progress and
deadline strictly below now.  The Mongo string comparison of the two
timestamp strings is embedded as the lexicographic order on their
character lists. -/
def sweep_overdue (now : String) (i : Issue) : Bool :=
  (i.status == "Open" || i.status == "In Progress") && decide (i.sla_deadline.data < now.data)

/-- Body of the sweep loop for one candidate issue: same chain-position
computation as escalate_issue, escalating (role advance, status
Escalated, System-authored log entry) whenever the position is below the
last index. -/
def sweep_step (uuids : Nat → String) (now : String)
    (acc : Nat × Store) (issue : Issue) : Nat × Store :=
  let escalated_count := acc.1
  let st := acc.2
  let hierarchy := get_role_hierarchy issue.category
  let current_index : Int :=
    if hierarchy.contains issue.assigned_role then hierarchy.indexOf issue.assigned_role
    else -1
  if current_index < (hierarchy.length : Int) - 1 then
    let next_role := hierarchy.getD (current_index + 1).toNat ""
    let issue_update : IssueUpdate :=
      { update_id := uuids escalated_count
        issue_id := issue.issue_id
        role := "System"
        content_type := "text"
        content_text := some ("Auto-escalated to " ++ next_role ++ " due to SLA breach")
        content_url := none
        timestamp := now }
    let issues2 := update_one st.issues issue.issue_id
      (fun i => { i with assigned_role := next_role, status := "Escalated" })
    (escalated_count + 1,
     { issues := issues2
       issue_updates := st.issue_updates ++ [issue_update] })
  else acc

/-- check_escalation handler (the SLA sweep): select up to 1000 overdue
Open or In Progress issues, escalate each that is not at its chain
ceiling, and return the escalated count with the new store. -/
def check_escalation (uuids : Nat → String) (now : String) (store : Store) :
    Nat × Store :=
  let issues := (store.issues.filter (sweep_overdue now)).take 1000
  issues.foldl (sweep_step uuids now) (0, store)

/-- Value of a field of a serialized document, as the JSON response
carries it. -/
inductive BsonValue where
  | str : String → BsonValue
  | num : Int → BsonValue
  | arr : List String → BsonValue
  | nullv : BsonValue
  deriving DecidableEq, Repr

/-- Serialization of an Issue document into its field map, the
model_dump of the pydantic model (the store adds no further field the
handlers return: the Mongo _id is excluded by every projection the code
uses). -/
def Issue.model_dump (i : Issue) : List (String × BsonValue) :=
  [("issue_id", .str i.issue_id),
   ("category", .str i.category),
   ("summary", .str i.summary),
   ("original_text", .str i.original_text),
   ("status", .str i.status),
   ("urgency_score", .num i.urgency_score),
   ("assigned_role", .str i.assigned_role),
   ("frequency_count", .num i.frequency_count),
   ("created_at", .str i.created_at),
   ("sla_deadline", .str i.sla_deadline),
   ("anon_token", .str i.anon_token),
   ("evidence_urls", .arr i.evidence_urls)]

/-- Serialization of an IssueUpdate document into its field map. -/
def IssueUpdate.model_dump (u : IssueUpdate) : List (String × BsonValue) :=
  [("update_id", .str u.update_id),
   ("issue_id", .str u.issue_id),
   ("role", .str u.role),
   ("content_type", .str u.content_type),
   ("content_text", match u.content_text with | some s => .str s | none => .nullv),
   ("content_url", match u.content_url with | some s => .str s | none => .nullv),
   ("timestamp", .str u.timestamp)]

/-- Mongo exclusion projection: drop the listed fields from a document. -/
def project_excluding (excluded : List String) (doc : List (String × BsonValue)) :
    List (String × BsonValue) :=
  doc.filter (fun kv => !excluded.contains kv.fst)

/-- Insertion of an update into a list sorted by descending timestamp. -/
def insert_desc (u : IssueUpdate) : List IssueUpdate → List IssueUpdate
  | [] => [u]
  | v :: rest =>
    if decide (v.timestamp < u.timestamp) || v.timestamp == u.timestamp then u :: v :: rest
    else v :: insert_desc u rest

/-- Sort of the update documents by timestamp, most recent first, the
sort of the get_issue handler. -/
def sort_by_timestamp_desc : List IssueUpdate → List IssueUpdate
  | [] => []
  | u :: rest => insert_desc u (sort_by_timestamp_desc rest)

/-- get_my_issues handler: a Student sees the issues carrying the anon
token recomputed from their own uid now; the Principal sees Escalated
issues; any other staff role sees the issues assigned to that role.
Every branch projects the anon_token (and _id) field away. -/
def get_my_issues (hash : String → String) (now : UtcTime) (store : Store)
    (current_user : CurrentUser) : List (List (String × BsonValue)) :=
  if current_user.role == "Student" then
    let anon_token := generate_anon_token hash current_user.uid now
    ((store.issues.filter (fun i => i.anon_token == anon_token)).take 1000).map
      (fun i => project_excluding ["_id", "anon_token"] i.model_dump)
  else
    let pred : Issue → Bool :=
      if current_user.role == "Principal" then fun i => i.status == "Escalated"
      else fun i => i.assigned_role == current_user.role
    ((store.issues.filter pred).take 1000).map
      (fun i => project_excluding ["_id", "anon_token"] i.model_dump)

/-- get_all_issues handler: Admin and Principal only; the full issue
list with the anon_token (and _id) field projected away. -/
def get_all_issues (store : Store) (current_user : CurrentUser) :
    Except HTTPException (List (List (String × BsonValue))) :=
  if !(["Admin", "Principal"].contains current_user.role) then
    .error ⟨403, "Access denied"⟩
  else
    .ok ((store.issues.take 1000).map
      (fun i => project_excluding ["_id", "anon_token"] i.model_dump))

/-- Response of the get_issue handler: the projected issue document and
its update documents, newest first. -/
structure IssueDetail where
  issue : List (String × BsonValue)
  updates : List (List (String × BsonValue))
  deriving DecidableEq, Repr

/-- get_issue handler: 404 when the issue does not exist; otherwise the
issue document with the anon_token (and _id) field projected away,
together with up to 100 of its updates sorted newest first.  The handler
requires an authenticated caller but reads no field of it. -/
def get_issue (store : Store) (_current_user : CurrentUser) (issue_id : String) :
    Except HTTPException IssueDetail :=
  match store.issues.find? (fun i => i.issue_id == issue_id) with
  | none => .error ⟨404, "Issue not found"⟩
  | some issue =>
    let updates := (sort_by_timestamp_desc
      (store.issue_updates.filter (fun u => u.issue_id == issue_id))).take 100
    .ok ⟨project_excluding ["_id", "anon_token"] issue.model_dump,
         updates.map (fun u => u.model_dump)⟩

/-!
Concrete fixtures used to evaluate the handlers on explicit inputs.
-/

/-- Identity digest, a concrete stand-in for the hash parameter. -/
def idHash : String → String := fun s => s

/-- Deterministic uuid supply for the sweep. -/
def uuidsFun : Nat → String := fun n => toString n

/-- A student caller. -/
def studentUser : CurrentUser := ⟨"stu-1", "Student"⟩

/-- An admin caller. -/
def adminUser : CurrentUser := ⟨"u-admin", "Admin"⟩

/-- Gateway that always accepts and summarizes to the word needle. -/
def okGateway : String → Option ModerationResult :=
  fun _ => some ⟨true, "needle", 10, "needle"⟩

/-- Gateway that flags every text as inappropriate. -/
def badGateway : String → Option ModerationResult :=
  fun _ => some ⟨false, "", 0, ""⟩

/-- Gateway whose call itself always fails. -/
def downGateway : String → Option ModerationResult := fun _ => none

/-- A feedback submission in category Other. -/
def needleFeedback : FeedbackSubmit := ⟨"Other", "needle text", none⟩

/-- An existing Open issue of category Other whose stored summary
contains the word needle case-insensitively. -/
def needleIssue : Issue :=
  { issue_id := "dup"
    category := "Other"
    summary := "the Needle issue"
    original_text := "the Needle issue"
    status := "Open"
    urgency_score := 20
    assigned_role := "Staff"
    frequency_count := 1
    created_at := "00000000000000000010"
    sla_deadline := "00000000000000000100"
    anon_token := "tok-dup"
    evidence_urls := [] }

/-- A non-matching Open issue of category Other. -/
def fillerIssue : Issue :=
  { issue_id := "filler"
    category := "Other"
    summary := "xxx"
    original_text := "xxx"
    status := "Open"
    urgency_score := 10
    assigned_role := "Staff"
    frequency_count := 1
    created_at := "00000000000000000010"
    sla_deadline := "00000000000000000100"
    anon_token := "tok-f"
    evidence_urls := [] }

/-- A store holding only the matching issue. -/
def smallStore : Store := ⟨[needleIssue], []⟩

/-- A store whose only matching non-Resolved issue of the category sits
at position 101, behind 100 non-matching ones. -/
def bigStore : Store := ⟨List.replicate 100 fillerIssue ++ [needleIssue], []⟩

/-- An Open, SLA-overdue Hostel issue whose assigned role does not occur
in the Hostel chain at all. -/
def hostelIssueOffChain : Issue :=
  { issue_id := "i1"
    category := "Hostel"
    summary := "wifi down"
    original_text := "wifi down"
    status := "Open"
    urgency_score := 40
    assigned_role := "Former"
    frequency_count := 1
    created_at := "00000000000000000010"
    sla_deadline := "00000000000000000100"
    anon_token := "tok-h"
    evidence_urls := [] }

/-- A store holding only the off-chain Hostel issue. -/
def hostelStore : Store := ⟨[hostelIssueOffChain], []⟩

/-- An Open, SLA-overdue Academics issue assigned to the first chain
role, hence not at the ceiling. -/
def overdueIssue : Issue :=
  { issue_id := "i-over"
    category := "Academics"
    summary := "projector broken"
    original_text := "projector broken"
    status := "Open"
    urgency_score := 40
    assigned_role := "Staff"
    frequency_count := 1
    created_at := "00000000000000000010"
    sla_deadline := "00000000000000000100"
    anon_token := "tok-o"
    evidence_urls := [] }

/-- An Academics issue whose assigned role is the last chain entry. -/
def ceilingIssue : Issue :=
  { issue_id := "i-ceil"
    category := "Academics"
    summary := "exam dates clash"
    original_text := "exam dates clash"
    status := "Open"
    urgency_score := 40
    assigned_role := "Principal"
    frequency_count := 1
    created_at := "00000000000000000010"
    sla_deadline := "00000000000000000100"
    anon_token := "tok-c"
    evidence_urls := [] }

/-- A store holding only the at-ceiling Academics issue. -/
def ceilingStore : Store := ⟨[ceilingIssue], []⟩

/-!
Helper lemmas shared by the claim theorems.
-/

/-- The category chain is never empty: every table entry and the
fallback are non-empty lists. -/
theorem get_role_hierarchy_ne_nil (c : String) : get_role_hierarchy c ≠ [] := by
  unfold get_role_hierarchy hierarchies
  simp only [List.lookup]
  repeat' split <;> simp_all

/-- Rewriting one document preserves the collection size. -/
theorem update_one_length (l : List Issue) (issue_id : String) (f : Issue → Issue) :
    (update_one l issue_id f).length = l.length := by
  induction l with
  | nil => rfl
  | cons i rest ih =>
    unfold update_one
    split <;> simp [ih]

/-- Looking a document up after update_one at the same id finds the
rewritten document, provided the rewrite preserves the id. -/
theorem find?_update_one (l : List Issue) (issue_id : String) (f : Issue → Issue)
    (hf : ∀ i, (f i).issue_id = i.issue_id) :
    (update_one l issue_id f).find? (fun i => i.issue_id == issue_id) =
      (l.find? (fun i => i.issue_id == issue_id)).map f := by
  induction l with
  | nil => rfl
  | cons i rest ih =>
    unfold update_one
    by_cases h : (i.issue_id == issue_id) = true
    · rw [if_pos h]
      have hfi : ((f i).issue_id == issue_id) = true := by rw [hf]; exact h
      simp [List.find?, hfi, h]
    · rw [if_neg h]
      simp [List.find?, h, ih]

/-- Documents surviving an exclusion projection never carry an excluded
key. -/
theorem project_excluding_no_key (excluded : List String)
    (doc : List (String × BsonValue)) (key : String)
    (hkey : excluded.contains key = true) :
    ∀ kv ∈ project_excluding excluded doc, kv.1 ≠ key := by
  intro kv hkv heq
  have hmem := List.of_mem_filter hkv
  rw [heq, hkey] at hmem
  simp at hmem


/-!
Claim theorems.
-/

/-- C6: whenever the moderation gateway reports the text inappropriate,
submit_feedback fails with the 400 content-rejected error and the store
is returned unchanged: no issue is created and no existing issue is
touched. -/
theorem c6_submit_rejects_inappropriate
    (gateway : String → Option ModerationResult) (hash : String → String)
    (now : UtcTime) (new_issue_id : String) (store : Store)
    (current_user : CurrentUser) (feedback : FeedbackSubmit)
    (hrole : current_user.role = "Student")
    (hbad : (moderate_with_gemini gateway feedback.text).is_appropriate = false) :
    submit_feedback gateway hash now new_issue_id store current_user feedback =
      (.error ⟨400, "Feedback contains inappropriate content"⟩, store) := by
  unfold submit_feedback
  rw [hrole]
  simp [hbad]

/-- C6 witness: the always-flagging gateway on a concrete submission. -/
theorem c6_submit_rejects_inappropriate_witness :
    submit_feedback badGateway idHash ⟨0⟩ "new-1" smallStore studentUser needleFeedback =
      (.error ⟨400, "Feedback contains inappropriate content"⟩, smallStore) :=
  c6_submit_rejects_inappropriate badGateway idHash ⟨0⟩ "new-1" smallStore studentUser
    needleFeedback rfl rfl

/-- C7: whenever the moderation gateway call itself fails,
moderate_with_gemini degrades to the permissive fallback of an
appropriate verdict, urgency 50 and the text truncated to 100 characters
as summary, and a student submission with such a gateway always
completes without the failure surfacing as an error. -/
theorem c7_gateway_failure_falls_back
    (gateway : String → Option ModerationResult) (hash : String → String)
    (now : UtcTime) (new_issue_id : String) (store : Store)
    (current_user : CurrentUser) (feedback : FeedbackSubmit)
    (hfail : gateway feedback.text = none)
    (hrole : current_user.role = "Student") :
    moderate_with_gemini gateway feedback.text =
      ⟨true, feedback.text, 50, feedback.text.take 100⟩ ∧
    ∃ resp st2,
      submit_feedback gateway hash now new_issue_id store current_user feedback =
        (.ok resp, st2) := by
  have hmod : moderate_with_gemini gateway feedback.text =
      ⟨true, feedback.text, 50, feedback.text.take 100⟩ := by
    unfold moderate_with_gemini
    rw [hfail]
  refine ⟨hmod, ?_⟩
  unfold submit_feedback
  rw [hrole]
  simp only [bne_self_eq_false, Bool.false_eq_true, if_false, ite_false]
  rw [hmod]
  cases hfind : ((store.issues.filter
      (fun i => i.category == feedback.category && i.status != "Resolved")).take 100).find?
      (fun existing =>
        is_similar (ModerationResult.mk true feedback.text 50 (feedback.text.take 100)).summary
          existing) with
  | none => simp [hfind]
  | some existing => simp [hfind]

/-- C7 witness: the failing gateway on a concrete student submission. -/
theorem c7_gateway_failure_falls_back_witness :
    moderate_with_gemini downGateway "needle text" =
      ⟨true, "needle text", 50, "needle text".take 100⟩ ∧
    ∃ resp st2,
      submit_feedback downGateway idHash ⟨0⟩ "new-1" smallStore studentUser needleFeedback =
        (.ok resp, st2) :=
  c7_gateway_failure_falls_back downGateway idHash ⟨0⟩ "new-1" smallStore studentUser
    needleFeedback rfl rfl

/-- C9: the anonymity token is a function of the identity and the UTC
day bucket alone, so two evaluations within the same day bucket agree,
and in particular the token stored at submission time equals the token a
same-day lookup recomputes. -/
theorem c9_anon_token_stable_same_day (hash : String → String) (uid : String)
    (t1 t2 : UtcTime) (hday : t1.dayBucket = t2.dayBucket) :
    generate_anon_token hash uid t1 = generate_anon_token hash uid t2 := by
  unfold generate_anon_token strftime_day
  rw [hday]

/-- C9 witness: two distinct instants of epoch day zero. -/
theorem c9_anon_token_stable_same_day_witness :
    UtcTime.dayBucket ⟨100⟩ = UtcTime.dayBucket ⟨86000⟩ ∧
    generate_anon_token idHash "stu-1" ⟨100⟩ = generate_anon_token idHash "stu-1" ⟨86000⟩ :=
  ⟨by decide, c9_anon_token_stable_same_day idHash "stu-1" ⟨100⟩ ⟨86000⟩ (by decide)⟩

/-- C5: for a non-student caller, add_update on an existing issue
appends exactly one update document and rewrites the issue status to
In Progress whatever the prior status was, while add_update on a missing
issue id fails with the 404 not-found error and appends nothing. -/
theorem c5_add_update_spec (update_id ts : String) (store : Store)
    (current_user : CurrentUser) (issue_id : String) (update : UpdateCreate)
    (hrole : current_user.role ≠ "Student") :
    (∀ issue, store.issues.find? (fun i => i.issue_id == issue_id) = some issue →
      add_update update_id ts store current_user issue_id update =
        (.ok "Update added successfully",
         ⟨update_one store.issues issue_id (fun i => { i with status := "In Progress" }),
          store.issue_updates ++
            [⟨update_id, issue_id, current_user.role, update.content_type,
              update.content_text, none, ts⟩]⟩) ∧
      ((update_one store.issues issue_id
          (fun i => { i with status := "In Progress" })).find?
          (fun i => i.issue_id == issue_id)).map Issue.status = some "In Progress") ∧
    (store.issues.find? (fun i => i.issue_id == issue_id) = none →
      add_update update_id ts store current_user issue_id update =
        (.error ⟨404, "Issue not found"⟩, store)) := by
  constructor
  · intro issue hfound
    constructor
    · unfold add_update
      simp only [beq_iff_eq, hrole, if_false, ite_false]
      rw [hfound]
    · rw [find?_update_one store.issues issue_id
        (fun i => { i with status := "In Progress" }) (fun i => rfl), hfound]
      rfl
  · intro hnone
    unfold add_update
    simp only [beq_iff_eq, hrole, if_false, ite_false]
    rw [hnone]

/-- C5 witness: an admin updating the one existing issue. -/
theorem c5_add_update_spec_witness :
    add_update "u9" "ts9" smallStore adminUser "dup" ⟨"text", some "note"⟩ =
      (.ok "Update added successfully",
       ⟨update_one smallStore.issues "dup" (fun i => { i with status := "In Progress" }),
        smallStore.issue_updates ++
          [⟨"u9", "dup", adminUser.role, "text", some "note", none, "ts9"⟩]⟩) :=
  ((c5_add_update_spec "u9" "ts9" smallStore adminUser "dup" ⟨"text", some "note"⟩
    (by decide)).1 needleIssue rfl).1

/-- C2 (amended): whenever the moderated summary matches, case
insensitively, the stored summary of one of the first 100 non-Resolved
issues of the category fetched from the store, submit_feedback bumps the
frequency count of the first such match by exactly one, returns its id,
and creates no new issue: the collection keeps its size. -/
theorem c2_submit_duplicate_bumps (gateway : String → Option ModerationResult)
    (hash : String → String) (now : UtcTime) (new_issue_id : String) (store : Store)
    (current_user : CurrentUser) (feedback : FeedbackSubmit) (existing : Issue)
    (hrole : current_user.role = "Student")
    (happ : (moderate_with_gemini gateway feedback.text).is_appropriate = true)
    (hfind : ((store.issues.filter
        (fun i => i.category == feedback.category && i.status != "Resolved")).take 100).find?
        (fun e => is_similar (moderate_with_gemini gateway feedback.text).summary e)
        = some existing) :
    submit_feedback gateway hash now new_issue_id store current_user feedback =
      (.ok ⟨"Similar issue already reported", existing.issue_id⟩,
       ⟨update_one store.issues existing.issue_id
          (fun i => { i with frequency_count := i.frequency_count + 1 }),
        store.issue_updates⟩) ∧
    (submit_feedback gateway hash now new_issue_id store current_user feedback).2.issues.length
      = store.issues.length := by
  have heq : submit_feedback gateway hash now new_issue_id store current_user feedback =
      (.ok ⟨"Similar issue already reported", existing.issue_id⟩,
       ⟨update_one store.issues existing.issue_id
          (fun i => { i with frequency_count := i.frequency_count + 1 }),
        store.issue_updates⟩) := by
    unfold submit_feedback
    rw [hrole]
    simp only [bne_self_eq_false, Bool.false_eq_true, if_false, ite_false]
    rw [happ]
    simp only [Bool.not_true, Bool.false_eq_true, if_false, ite_false]
    rw [hfind]
  exact ⟨heq, by rw [heq]; exact update_one_length _ _ _⟩

/-- C2 witness: the matching issue is the only one, hence within the
first page. -/
theorem c2_submit_duplicate_bumps_witness :
    submit_feedback okGateway idHash ⟨0⟩ "new-1" smallStore studentUser needleFeedback =
      (.ok ⟨"Similar issue already reported", needleIssue.issue_id⟩,
       ⟨update_one smallStore.issues needleIssue.issue_id
          (fun i => { i with frequency_count := i.frequency_count + 1 }),
        smallStore.issue_updates⟩) ∧
    (submit_feedback okGateway idHash ⟨0⟩ "new-1" smallStore studentUser
        needleFeedback).2.issues.length = smallStore.issues.length :=
  c2_submit_duplicate_bumps okGateway idHash ⟨0⟩ "new-1" smallStore studentUser
    needleFeedback needleIssue rfl rfl rfl

/-- C2 counterexample: a store whose only matching non-Resolved issue of
the category sits at position 101.  The premise of the claim holds, yet
submit_feedback creates a new issue, the collection grows to 102
documents, and the frequency count of the matching issue stays 1, because
the duplicate scan reads at most the first 100 documents. -/
theorem c2_counterexample :
    (needleIssue ∈ bigStore.issues ∧ needleIssue.category = needleFeedback.category ∧
      needleIssue.status ≠ "Resolved" ∧
      is_similar (moderate_with_gemini okGateway needleFeedback.text).summary needleIssue
        = true) ∧
    (submit_feedback okGateway idHash ⟨0⟩ "new-1" bigStore studentUser needleFeedback).1 =
      .ok ⟨"Feedback submitted successfully", "new-1"⟩ ∧
    (submit_feedback okGateway idHash ⟨0⟩ "new-1" bigStore studentUser
        needleFeedback).2.issues.length = 102 ∧
    ((submit_feedback okGateway idHash ⟨0⟩ "new-1" bigStore studentUser
        needleFeedback).2.issues.find? (fun i => i.issue_id == "dup")).map
        Issue.frequency_count = some 1 := by
  refine ⟨⟨?_, rfl, by decide, by decide⟩, rfl, rfl, rfl⟩
  simp [bigStore]

/-- C4: whenever moderation accepts the text and no stored issue of the
fetched page matches as a duplicate, submit_feedback appends exactly one
new issue, Open, with frequency 1, assigned to the first element of the
category chain, carrying the moderation urgency and summary, the
original text verbatim, and an SLA deadline of the creation instant plus
two days. -/
theorem c4_submit_creates_new (gateway : String → Option ModerationResult)
    (hash : String → String) (now : UtcTime) (new_issue_id : String) (store : Store)
    (current_user : CurrentUser) (feedback : FeedbackSubmit)
    (hrole : current_user.role = "Student")
    (happ : (moderate_with_gemini gateway feedback.text).is_appropriate = true)
    (hnodup : ((store.issues.filter
        (fun i => i.category == feedback.category && i.status != "Resolved")).take 100).find?
        (fun e => is_similar (moderate_with_gemini gateway feedback.text).summary e)
        = none) :
    ∃ issue : Issue,
      submit_feedback gateway hash now new_issue_id store current_user feedback =
        (.ok ⟨"Feedback submitted successfully", new_issue_id⟩,
         ⟨store.issues ++ [issue], store.issue_updates⟩) ∧
      issue.status = "Open" ∧
      issue.frequency_count = 1 ∧
      (get_role_hierarchy feedback.category).head? = some issue.assigned_role ∧
      issue.urgency_score = (moderate_with_gemini gateway feedback.text).urgency_score ∧
      issue.summary = (moderate_with_gemini gateway feedback.text).summary ∧
      issue.original_text = feedback.text ∧
      issue.created_at = now.isoformat ∧
      issue.sla_deadline = (now.addDays 2).isoformat := by
  refine ⟨⟨new_issue_id, feedback.category,
      (moderate_with_gemini gateway feedback.text).summary, feedback.text, "Open",
      (moderate_with_gemini gateway feedback.text).urgency_score,
      (get_role_hierarchy feedback.category).headD "Staff", 1, now.isoformat,
      (now.addDays 2).isoformat, generate_anon_token hash current_user.uid now,
      feedback.evidence_urls.getD []⟩, ?_, rfl, rfl, ?_, rfl, rfl, rfl, rfl, rfl⟩
  · unfold submit_feedback
    rw [hrole]
    simp only [bne_self_eq_false, Bool.false_eq_true, if_false, ite_false]
    rw [happ]
    simp only [Bool.not_true, Bool.false_eq_true, if_false, ite_false]
    rw [hnodup]
  · have hne := get_role_hierarchy_ne_nil feedback.category
    cases hc : get_role_hierarchy feedback.category with
    | nil => exact absurd hc hne
    | cons a l => simp

/-- C4 witness: a fresh submission against the empty store. -/
theorem c4_submit_creates_new_witness :
    ∃ issue : Issue,
      submit_feedback okGateway idHash ⟨0⟩ "new-1" ⟨[], []⟩ studentUser needleFeedback =
        (.ok ⟨"Feedback submitted successfully", "new-1"⟩,
         ⟨([] : List Issue) ++ [issue], ([] : List IssueUpdate)⟩) ∧
      issue.status = "Open" ∧
      issue.frequency_count = 1 ∧
      (get_role_hierarchy needleFeedback.category).head? = some issue.assigned_role ∧
      issue.urgency_score = (moderate_with_gemini okGateway needleFeedback.text).urgency_score ∧
      issue.summary = (moderate_with_gemini okGateway needleFeedback.text).summary ∧
      issue.original_text = needleFeedback.text ∧
      issue.created_at = UtcTime.isoformat ⟨0⟩ ∧
      issue.sla_deadline = (UtcTime.addDays ⟨0⟩ 2).isoformat :=
  c4_submit_creates_new okGateway idHash ⟨0⟩ "new-1" ⟨[], []⟩ studentUser needleFeedback
    rfl rfl rfl

/-- C10: the duplicate scan reads at most the first 100 non-Resolved
issues of the category: when none of that page matches, submit_feedback
appends a fresh issue and leaves every stored issue untouched, even
though a matching non-Resolved issue of the category exists further down
the collection. -/
theorem c10_submit_skips_match_beyond_page (gateway : String → Option ModerationResult)
    (hash : String → String) (now : UtcTime) (new_issue_id : String) (store : Store)
    (current_user : CurrentUser) (feedback : FeedbackSubmit)
    (hrole : current_user.role = "Student")
    (happ : (moderate_with_gemini gateway feedback.text).is_appropriate = true)
    (hnodup100 : ((store.issues.filter
        (fun i => i.category == feedback.category && i.status != "Resolved")).take 100).find?
        (fun e => is_similar (moderate_with_gemini gateway feedback.text).summary e)
        = none)
    (_hmatch : ∃ e ∈ store.issues.filter
        (fun i => i.category == feedback.category && i.status != "Resolved"),
        is_similar (moderate_with_gemini gateway feedback.text).summary e = true) :
    ∃ issue : Issue,
      submit_feedback gateway hash now new_issue_id store current_user feedback =
        (.ok ⟨"Feedback submitted successfully", new_issue_id⟩,
         ⟨store.issues ++ [issue], store.issue_updates⟩) := by
  refine ⟨⟨new_issue_id, feedback.category,
      (moderate_with_gemini gateway feedback.text).summary, feedback.text, "Open",
      (moderate_with_gemini gateway feedback.text).urgency_score,
      (get_role_hierarchy feedback.category).headD "Staff", 1, now.isoformat,
      (now.addDays 2).isoformat, generate_anon_token hash current_user.uid now,
      feedback.evidence_urls.getD []⟩, ?_⟩
  unfold submit_feedback
  rw [hrole]
  simp only [bne_self_eq_false, Bool.false_eq_true, if_false, ite_false]
  rw [happ]
  simp only [Bool.not_true, Bool.false_eq_true, if_false, ite_false]
  rw [hnodup100]

/-- C10 witness: the 101-issue store whose only match is the last
document. -/
theorem c10_submit_skips_match_beyond_page_witness :
    ∃ issue : Issue,
      submit_feedback okGateway idHash ⟨0⟩ "new-1" bigStore studentUser needleFeedback =
        (.ok ⟨"Feedback submitted successfully", "new-1"⟩,
         ⟨bigStore.issues ++ [issue], bigStore.issue_updates⟩) :=
  c10_submit_skips_match_beyond_page okGateway idHash ⟨0⟩ "new-1" bigStore studentUser
    needleFeedback rfl rfl rfl ⟨needleIssue, by decide, by decide⟩

/-- Every category chain has at least one role. -/
theorem get_role_hierarchy_length_pos (c : String) : 1 ≤ (get_role_hierarchy c).length := by
  cases h : get_role_hierarchy c with
  | nil => exact absurd h (get_role_hierarchy_ne_nil c)
  | cons a l => simp

/-- C3: a single-issue store holding an Open issue past its SLA deadline
and not at its chain ceiling: the sweep advances the role to the next
chain entry, sets the status to Escalated, appends exactly one
System-authored update, and reports count 1; an immediate second sweep
with the same now reports count 0 and changes nothing, the issue being
no longer Open or In Progress. -/
theorem c3_sweep_escalates_once (uuids : Nat → String) (now : String)
    (issue : Issue) (ups : List IssueUpdate)
    (hstatus : issue.status = "Open")
    (hover : issue.sla_deadline.data < now.data)
    (hmem : (get_role_hierarchy issue.category).contains issue.assigned_role = true)
    (hidx : (get_role_hierarchy issue.category).indexOf issue.assigned_role + 1
        < (get_role_hierarchy issue.category).length) :
    check_escalation uuids now ⟨[issue], ups⟩ =
      (1,
       ⟨[{ issue with
            assigned_role := (get_role_hierarchy issue.category).getD
              ((get_role_hierarchy issue.category).indexOf issue.assigned_role + 1) ""
            status := "Escalated" }],
        ups ++ [⟨uuids 0, issue.issue_id, "System", "text",
          some ("Auto-escalated to "
            ++ (get_role_hierarchy issue.category).getD
              ((get_role_hierarchy issue.category).indexOf issue.assigned_role + 1) ""
            ++ " due to SLA breach"), none, now⟩]⟩) ∧
    check_escalation uuids now (check_escalation uuids now ⟨[issue], ups⟩).2 =
      (0, (check_escalation uuids now ⟨[issue], ups⟩).2) := by
  have hfilter : sweep_overdue now issue = true := by
    unfold sweep_overdue
    rw [hstatus]
    simp [hover]
  have hcond : (((get_role_hierarchy issue.category).indexOf issue.assigned_role : Int))
      < ((get_role_hierarchy issue.category).length : Int) - 1 := by
    omega
  have htn : ((((get_role_hierarchy issue.category).indexOf issue.assigned_role : Int)) + 1).toNat
      = (get_role_hierarchy issue.category).indexOf issue.assigned_role + 1 := by
    omega
  have hstep : ∀ acc : Nat × Store, sweep_step uuids now acc issue =
      (acc.1 + 1,
       ⟨update_one acc.2.issues issue.issue_id
          (fun i => { i with
            assigned_role := (get_role_hierarchy issue.category).getD
              ((get_role_hierarchy issue.category).indexOf issue.assigned_role + 1) ""
            status := "Escalated" }),
        acc.2.issue_updates ++ [⟨uuids acc.1, issue.issue_id, "System", "text",
          some ("Auto-escalated to "
            ++ (get_role_hierarchy issue.category).getD
              ((get_role_hierarchy issue.category).indexOf issue.assigned_role + 1) ""
            ++ " due to SLA breach"), none, now⟩]⟩) := by
    intro acc
    simp only [sweep_step, hmem, eq_self_iff_true, if_true, ite_true]
    rw [if_pos hcond, htn]
  have h1 : check_escalation uuids now ⟨[issue], ups⟩ =
      (1,
       ⟨[{ issue with
            assigned_role := (get_role_hierarchy issue.category).getD
              ((get_role_hierarchy issue.category).indexOf issue.assigned_role + 1) ""
            status := "Escalated" }],
        ups ++ [⟨uuids 0, issue.issue_id, "System", "text",
          some ("Auto-escalated to "
            ++ (get_role_hierarchy issue.category).getD
              ((get_role_hierarchy issue.category).indexOf issue.assigned_role + 1) ""
            ++ " due to SLA breach"), none, now⟩]⟩) := by
    unfold check_escalation
    simp only [List.filter_cons, hfilter, if_true, ite_true, List.filter_nil,
      List.take, List.foldl]
    rw [hstep (0, ⟨[issue], ups⟩)]
    simp [update_one]
  refine ⟨h1, ?_⟩
  rw [h1]
  have hfilter2 : sweep_overdue now
      ({ issue with
          assigned_role := (get_role_hierarchy issue.category).getD
            ((get_role_hierarchy issue.category).indexOf issue.assigned_role + 1) ""
          status := "Escalated" }) = false := by
    simp [sweep_overdue]
  unfold check_escalation
  simp only [List.filter_cons, hfilter2, Bool.false_eq_true, if_false, ite_false,
    List.filter_nil, List.take, List.foldl]

/-- C3 witness: an overdue Open Academics issue assigned to Staff. -/
theorem c3_sweep_escalates_once_witness :
    check_escalation uuidsFun "00000000000000000200" ⟨[overdueIssue], []⟩ =
      (1,
       ⟨[{ overdueIssue with
            assigned_role := (get_role_hierarchy overdueIssue.category).getD
              ((get_role_hierarchy overdueIssue.category).indexOf
                overdueIssue.assigned_role + 1) ""
            status := "Escalated" }],
        [] ++ [⟨uuidsFun 0, overdueIssue.issue_id, "System", "text",
          some ("Auto-escalated to "
            ++ (get_role_hierarchy overdueIssue.category).getD
              ((get_role_hierarchy overdueIssue.category).indexOf
                overdueIssue.assigned_role + 1) ""
            ++ " due to SLA breach"), none, "00000000000000000200"⟩]⟩) ∧
    check_escalation uuidsFun "00000000000000000200"
        (check_escalation uuidsFun "00000000000000000200" ⟨[overdueIssue], []⟩).2 =
      (0, (check_escalation uuidsFun "00000000000000000200" ⟨[overdueIssue], []⟩).2) :=
  c3_sweep_escalates_once uuidsFun "00000000000000000200" overdueIssue []
    rfl (by decide) (by decide) (by decide)

/-- C1 (amended): an issue whose assigned role sits at the last position
of its category chain is refused by escalate_issue with the 400
at-ceiling error and no mutation, and the sweep leaves such an issue
untouched; but a role absent from the chain is not treated as at
ceiling: the sentinel index -1 makes both escalate_issue and the sweep
advance the issue to the first element of the chain, mutating it. -/
theorem c1_escalate_ceiling_amended :
    (∀ (update_id ts : String) (store : Store) (current_user : CurrentUser)
        (issue_id : String) (reason : Option String) (issue : Issue),
      current_user.role ≠ "Student" →
      store.issues.find? (fun i => i.issue_id == issue_id) = some issue →
      (get_role_hierarchy issue.category).contains issue.assigned_role = true →
      (get_role_hierarchy issue.category).indexOf issue.assigned_role
        = (get_role_hierarchy issue.category).length - 1 →
      escalate_issue update_id ts store current_user issue_id reason =
        (.error ⟨400, "Already at highest level"⟩, store)) ∧
    (∀ (uuids : Nat → String) (now : String) (issue : Issue) (ups : List IssueUpdate),
      (get_role_hierarchy issue.category).contains issue.assigned_role = true →
      (get_role_hierarchy issue.category).indexOf issue.assigned_role
        = (get_role_hierarchy issue.category).length - 1 →
      check_escalation uuids now ⟨[issue], ups⟩ = (0, ⟨[issue], ups⟩)) ∧
    (∀ (update_id ts : String) (store : Store) (current_user : CurrentUser)
        (issue_id : String) (reason : Option String) (issue : Issue),
      current_user.role ≠ "Student" →
      store.issues.find? (fun i => i.issue_id == issue_id) = some issue →
      (get_role_hierarchy issue.category).contains issue.assigned_role = false →
      escalate_issue update_id ts store current_user issue_id reason =
        (.ok ("Issue escalated to " ++ (get_role_hierarchy issue.category).getD 0 ""),
         ⟨update_one store.issues issue_id
            (fun i => { i with
              assigned_role := (get_role_hierarchy issue.category).getD 0 ""
              status := "Escalated" }),
          store.issue_updates ++ [⟨update_id, issue_id, current_user.role, "text",
            some ("Escalated to " ++ (get_role_hierarchy issue.category).getD 0 ""
              ++ ". Reason: " ++ py_or reason "Manual escalation"), none, ts⟩]⟩)) ∧
    (∀ (uuids : Nat → String) (now : String) (issue : Issue) (ups : List IssueUpdate),
      sweep_overdue now issue = true →
      (get_role_hierarchy issue.category).contains issue.assigned_role = false →
      check_escalation uuids now ⟨[issue], ups⟩ =
        (1, ⟨[{ issue with
                assigned_role := (get_role_hierarchy issue.category).getD 0 ""
                status := "Escalated" }],
            ups ++ [⟨uuids 0, issue.issue_id, "System", "text",
              some ("Auto-escalated to " ++ (get_role_hierarchy issue.category).getD 0 ""
                ++ " due to SLA breach"), none, now⟩]⟩)) := by
  refine ⟨?_, ?_, ?_, ?_⟩
  · intro update_id ts store current_user issue_id reason issue hrole hfind hmem hlast
    have hr : (current_user.role == "Student") = false := beq_eq_false_iff_ne.mpr hrole
    have hlen := get_role_hierarchy_length_pos issue.category
    have hcond : (((get_role_hierarchy issue.category).indexOf issue.assigned_role : Int))
        ≥ ((get_role_hierarchy issue.category).length : Int) - 1 := by omega
    simp only [escalate_issue, hr, Bool.false_eq_true, if_false, ite_false, hfind]
    rw [if_pos hmem, if_pos hcond]
  · intro uuids now issue ups hmem hlast
    have hlen := get_role_hierarchy_length_pos issue.category
    have hncond : ¬ ((((get_role_hierarchy issue.category).indexOf issue.assigned_role : Int))
        < ((get_role_hierarchy issue.category).length : Int) - 1) := by omega
    unfold check_escalation
    cases hsel : sweep_overdue now issue with
    | false => simp [hsel]
    | true =>
      simp only [List.filter_cons, hsel, if_true, ite_true, List.filter_nil,
        List.take, List.foldl]
      simp only [sweep_step, hmem, eq_self_iff_true, if_true, ite_true]
      rw [if_neg hncond]
  · intro update_id ts store current_user issue_id reason issue hrole hfind hmemf
    have hr : (current_user.role == "Student") = false := beq_eq_false_iff_ne.mpr hrole
    have hlen := get_role_hierarchy_length_pos issue.category
    simp only [escalate_issue, hr, Bool.false_eq_true, if_false, ite_false, hfind]
    rw [if_neg (by rw [hmemf]; exact Bool.false_ne_true :
      ¬ ((get_role_hierarchy issue.category).contains issue.assigned_role = true))]
    rw [if_neg (by omega :
      ¬ ((-1 : Int) ≥ ((get_role_hierarchy issue.category).length : Int) - 1))]
    have ht0 : ((-1 : Int) + 1).toNat = 0 := by decide
    rw [ht0]
  · intro uuids now issue ups hsel hmemf
    have hlen := get_role_hierarchy_length_pos issue.category
    unfold check_escalation
    simp only [List.filter_cons, hsel, if_true, ite_true, List.filter_nil,
      List.take, List.foldl]
    simp only [sweep_step]
    rw [if_neg (by rw [hmemf]; exact Bool.false_ne_true :
      ¬ ((get_role_hierarchy issue.category).contains issue.assigned_role = true))]
    rw [if_pos (by omega :
      ((-1 : Int) < ((get_role_hierarchy issue.category).length : Int) - 1))]
    have ht0 : ((-1 : Int) + 1).toNat = 0 := by decide
    rw [ht0]
    simp [update_one]

/-- C1 counterexample: the Hostel chain does not contain the role of the
stored issue, yet escalate_issue succeeds and rewrites the issue onto
the first chain role Warden, and the sweep escalates the overdue issue
the same way instead of leaving it untouched — for a role absent from
its chain the claimed fail-closed at-ceiling behaviour does not hold. -/
theorem c1_counterexample :
    (get_role_hierarchy hostelIssueOffChain.category).contains
        hostelIssueOffChain.assigned_role = false ∧
    escalate_issue "u1" "t1" hostelStore adminUser "i1" none =
      (.ok "Issue escalated to Warden",
       ⟨[{ hostelIssueOffChain with assigned_role := "Warden", status := "Escalated" }],
        [⟨"u1", "i1", "Admin", "text",
          some "Escalated to Warden. Reason: Manual escalation", none, "t1"⟩]⟩) ∧
    check_escalation uuidsFun "00000000000000000200" hostelStore =
      (1, ⟨[{ hostelIssueOffChain with assigned_role := "Warden", status := "Escalated" }],
          [⟨"0", "i1", "System", "text",
            some "Auto-escalated to Warden due to SLA breach", none,
            "00000000000000000200"⟩]⟩) := by
  refine ⟨rfl, rfl, rfl⟩

/-- C1 witness: the amended behaviour at concrete inputs: an Academics
issue assigned to Principal is refused with the 400 at-ceiling error and
left untouched by both paths, while the off-chain Hostel issue is
advanced to the first chain role by both escalate_issue and the sweep. -/
theorem c1_escalate_ceiling_amended_witness :
    escalate_issue "u1" "t1" ceilingStore adminUser "i-ceil" none =
      (.error ⟨400, "Already at highest level"⟩, ceilingStore) ∧
    check_escalation uuidsFun "00000000000000000200" ⟨[ceilingIssue], []⟩ =
      (0, ⟨[ceilingIssue], []⟩) ∧
    escalate_issue "u1" "t1" hostelStore adminUser "i1" none =
      (.ok ("Issue escalated to "
          ++ (get_role_hierarchy hostelIssueOffChain.category).getD 0 ""),
       ⟨update_one hostelStore.issues "i1"
          (fun i => { i with
            assigned_role := (get_role_hierarchy hostelIssueOffChain.category).getD 0 ""
            status := "Escalated" }),
        hostelStore.issue_updates ++ [⟨"u1", "i1", adminUser.role, "text",
          some ("Escalated to "
            ++ (get_role_hierarchy hostelIssueOffChain.category).getD 0 ""
            ++ ". Reason: " ++ py_or none "Manual escalation"),
          none, "t1"⟩]⟩) ∧
    check_escalation uuidsFun "00000000000000000200" ⟨[hostelIssueOffChain], []⟩ =
      (1, ⟨[{ hostelIssueOffChain with
              assigned_role := (get_role_hierarchy hostelIssueOffChain.category).getD 0 ""
              status := "Escalated" }],
          [] ++ [⟨uuidsFun 0, hostelIssueOffChain.issue_id, "System", "text",
            some ("Auto-escalated to "
              ++ (get_role_hierarchy hostelIssueOffChain.category).getD 0 ""
              ++ " due to SLA breach"), none, "00000000000000000200"⟩]⟩) :=
  ⟨c1_escalate_ceiling_amended.1 "u1" "t1" ceilingStore adminUser "i-ceil" none
      ceilingIssue (by decide) rfl (by decide) (by decide),
   c1_escalate_ceiling_amended.2.1 uuidsFun "00000000000000000200" ceilingIssue []
      (by decide) (by decide),
   c1_escalate_ceiling_amended.2.2.1 "u1" "t1" hostelStore adminUser "i1" none
      hostelIssueOffChain (by decide) rfl (by decide),
   c1_escalate_ceiling_amended.2.2.2 uuidsFun "00000000000000000200" hostelIssueOffChain []
      (by decide) (by decide)⟩

/-- C8: no listing or detail response carries the anonymity token: every
issue document returned by get_my_issues, get_all_issues or get_issue
has the anon_token field projected away, whatever the caller role. -/
theorem c8_anon_token_never_exposed :
    (∀ (hash : String → String) (now : UtcTime) (store : Store)
        (current_user : CurrentUser) (doc : List (String × BsonValue)),
      doc ∈ get_my_issues hash now store current_user →
      ∀ kv ∈ doc, kv.1 ≠ "anon_token") ∧
    (∀ (store : Store) (current_user : CurrentUser)
        (docs : List (List (String × BsonValue))),
      get_all_issues store current_user = .ok docs →
      ∀ doc ∈ docs, ∀ kv ∈ doc, kv.1 ≠ "anon_token") ∧
    (∀ (store : Store) (current_user : CurrentUser) (issue_id : String)
        (detail : IssueDetail),
      get_issue store current_user issue_id = .ok detail →
      ∀ kv ∈ detail.issue, kv.1 ≠ "anon_token") := by
  refine ⟨?_, ?_, ?_⟩
  · intro hash now store current_user doc hdoc kv hkv
    unfold get_my_issues at hdoc
    split at hdoc <;>
    · simp only [List.mem_map] at hdoc
      obtain ⟨i, -, rfl⟩ := hdoc
      exact project_excluding_no_key _ _ _ (by decide) kv hkv
  · intro store current_user docs h doc hdoc kv hkv
    unfold get_all_issues at h
    split at h
    · exact Except.noConfusion h
    · injection h with h
      subst h
      simp only [List.mem_map] at hdoc
      obtain ⟨i, -, rfl⟩ := hdoc
      exact project_excluding_no_key _ _ _ (by decide) kv hkv
  · intro store current_user issue_id detail h kv hkv
    unfold get_issue at h
    split at h
    · exact Except.noConfusion h
    · injection h with h
      subst h
      exact project_excluding_no_key _ _ _ (by decide) kv hkv

/-- C8 witness: a staff listing over the one-issue store, checked on the
first field of the returned document. -/
theorem c8_anon_token_never_exposed_witness :
    ("issue_id", BsonValue.str "dup").1 ≠ "anon_token" :=
  c8_anon_token_never_exposed.1 idHash ⟨0⟩ smallStore ⟨"u2", "Staff"⟩
    (project_excluding ["_id", "anon_token"] needleIssue.model_dump)
    (by decide) ("issue_id", BsonValue.str "dup") (by decide)
